import Mathlib

/-!
# RTA Break Tracker — metrics engine, shallow embedding

A shallow embedding of the metrics/adherence computation engine of the
RTA Break Tracker repository (`src/app.py`, `src/config.py`), together
with proofs settling the frozen claims about it.

Modelling conventions:
* Timestamps (`datetime` values) are minutes since an arbitrary epoch,
  as plain `Int` values.  The source computes every time
  difference in whole minutes (`total_seconds() / 60` on values that the
  engine compares against whole-minute bounds), so minute granularity is
  faithful for every quantity the claims mention.  `date()` is floor
  division by 1440 and `time()` is the remainder, matching Python
  calendar semantics.
* Calendar dates (`YYYY-MM-DD` strings and `db.Date` columns) are day
  numbers (`Int`); the SQL comparisons `db.func.date(start_time) >= d`
  become integer comparisons on `dateOf`.
* The engine operates on one agent's records: the SQL `agent_id`
  filters are modelled by taking the per-agent collections as inputs,
  exactly as the spec describes the engine ("a pure function of a set
  of event records plus a date range").
* Nullable columns become `Option`; percentage arithmetic (Python
  floats) becomes exact rational arithmetic `ℚ`; Python `round(x, 1)` /
  `round(x, 2)` become `round1` / `round2` (decimal rounding; the
  claims never hinge on float representation or tie behaviour).
* The Python dicts `shifts_by_date` and `punch_records_by_date`
  (insertion-ordered, later assignments overwriting earlier ones) are
  modelled by first-occurrence key order with last-occurrence values.
-/

namespace Rta

/-- Python `dt.date()`: the calendar day of an instant (`Int` division
is euclidean division, which is floor division for a positive divisor,
matching Python calendar semantics). -/
def dateOf (t : Int) : Int := t / 1440

/-- Python `dt.time()`: minutes into the day. -/
def timeOf (t : Int) : Int := t % 1440

/-- Python `datetime.combine(date, time)`. -/
def combine (d tm : Int) : Int := d * 1440 + tm

/-- `BreakRecord` model (src/app.py lines 139-214): one typed event for
one agent.  `start_time` is non-nullable; `end_time` and
`duration_minutes` are null while the break is active. -/
structure BreakRecord where
  break_type : String
  start_time : Int
  end_time : Option Int
  duration_minutes : Option Int
  is_overdue : Bool
deriving DecidableEq

/-- `Shift` model (src/app.py lines 80-114): a scheduled work window,
possibly spanning into the next calendar date. -/
structure Shift where
  start_date : Int
  start_time : Int
  end_date : Int
  end_time : Int
deriving DecidableEq

/-- Break types that count as working time (src/app.py line 24). -/
def WORKING_TIME_BREAKS : List String :=
  ["coaching_aya", "coaching_mostafa", "meeting_team_leader", "overtime"]

/-- The configured break-type → allowed-duration table
(src/config.py `BREAK_DURATIONS`). -/
def BREAK_DURATIONS : List (String × Int) :=
  [("short", 15), ("lunch", 30), ("meeting", 60), ("huddle", 15),
   ("emergency", 15), ("coaching_aya", 30), ("coaching_mostafa", 30),
   ("punch_in", 0), ("punch_out", 0), ("overtime", 0),
   ("compensation", 0), ("meeting_team_leader", 60)]

/-- The attendance event types (src/app.py, the literal list
`['punch_in', 'punch_out']` used at lines 1717, 1740, 1790). -/
def punchTypes : List String := ["punch_in", "punch_out"]

/-- `BreakRecord.get_allowed_duration` (src/app.py lines 167-168):
`BREAK_DURATIONS.get(self.break_type, 15)`. -/
def get_allowed_duration (b : BreakRecord) : Int :=
  (BREAK_DURATIONS.lookup b.break_type).getD 15

/-- `BreakRecord.is_working_time_break` (src/app.py lines 170-172). -/
def is_working_time_break (b : BreakRecord) : Bool :=
  WORKING_TIME_BREAKS.contains b.break_type

/-- `BreakRecord.get_effective_overdue_status` (src/app.py lines
174-178): the stored flag, but always `false` for working-time breaks. -/
def get_effective_overdue_status (b : BreakRecord) : Bool :=
  if is_working_time_break b then false else b.is_overdue

/-- The flag value the application writes into `is_overdue` whenever a
break record is created or closed (src/app.py lines 973-974, 1044-1049
and 1198-1207): attendance events and working-time breaks are never
overdue; a completed break with a known duration is overdue exactly when
that duration exceeds the allowed duration; an active break is not
overdue yet. -/
def overdueFlagFor (b : BreakRecord) : Bool :=
  if punchTypes.contains b.break_type || is_working_time_break b then false
  else if b.end_time.isSome && b.duration_minutes.isSome then
    decide (get_allowed_duration b < b.duration_minutes.getD 0)
  else false

/-- Python `round(x, 1)`, as exact decimal rounding on `ℚ`. -/
def round1 (x : ℚ) : ℚ := ((round (10 * x) : ℤ) : ℚ) / 10

/-- Python `round(x, 2)`, as exact decimal rounding on `ℚ`. -/
def round2 (x : ℚ) : ℚ := ((round (100 * x) : ℤ) : ℚ) / 100

/-- `Shift.get_duration_hours` (src/app.py lines 93-97). -/
def get_duration_hours (s : Shift) : ℚ :=
  ((combine s.end_date s.end_time - combine s.start_date s.start_time : Int) : ℚ) / 60

/-- The regular-break partition (src/app.py line 1717): completed
breaks whose type is neither a working-time type nor an attendance
punch.  (Note `compensation` and unrecognized type tags land here.) -/
def regularBreaks (breaks : List BreakRecord) : List BreakRecord :=
  breaks.filter (fun b =>
    !(WORKING_TIME_BREAKS ++ punchTypes).contains b.break_type && b.end_time.isSome)

/-- `total_break_minutes` (src/app.py line 1721):
`sum(b.duration_minutes or 0 for b in regular_breaks)`. -/
def totalBreakMinutes (breaks : List BreakRecord) : Int :=
  ((regularBreaks breaks).map (fun b => b.duration_minutes.getD 0)).sum

/-- Break-duration adherence scores (src/app.py lines 1768-1781): one
score per regular break that is completed, has a recorded duration and
a positive allowed duration.  (The `total_completed_breaks > 0` guard
in the source is redundant: the loop body runs over the same list.) -/
def breakScores (breaks : List BreakRecord) : List ℚ :=
  (regularBreaks breaks).filterMap (fun b =>
    if b.end_time.isSome && b.duration_minutes.isSome then
      if 0 < get_allowed_duration b then
        some (if b.duration_minutes.getD 0 ≤ get_allowed_duration b then (100 : ℚ)
              else ((get_allowed_duration b : ℚ) / (b.duration_minutes.getD 0 : ℚ)) * 100)
      else none
    else none)

/-- Key set of a Python dict built by repeated assignment: keys in
first-occurrence order. -/
def firstOccurrences (l : List Int) : List Int :=
  l.foldl (fun acc d => if acc.contains d then acc else acc ++ [d]) []

/-- Value of the Python dict `shifts_by_date` (src/app.py line 1785) at
a key: the last shift inserted with that start date. -/
def shiftOn (shifts : List Shift) (d : Int) : Option Shift :=
  (shifts.filter (fun s => s.start_date == d)).getLast?

/-- Value of the nested Python dict `punch_records_by_date`
(src/app.py lines 1788-1794) at a date and punch type: the last record
of that type whose start instant falls on that calendar date. -/
def punchOn (breaks : List BreakRecord) (d : Int) (ty : String) : Option BreakRecord :=
  (breaks.filter (fun b => b.break_type == ty && dateOf b.start_time == d)).getLast?

/-- The per-punch score formula (src/app.py lines 1811-1819 and
1836-1843): 100 inside the 5-minute grace window, then linear down to 0
at 30 minutes off. -/
def punchScore (actual scheduled : Int) : ℚ :=
  let diff : ℚ := |((actual - scheduled : Int) : ℚ)|
  if diff ≤ 5 then 100 else max 0 ((30 - diff) / 30 * 100)

/-- Punch-in/punch-out adherence scores (src/app.py lines 1783-1847):
for each shift day, a punch-in score against the shift start and a
punch-out score against the shift end, each 0 when the punch record for
that day is missing. -/
def punchScores (breaks : List BreakRecord) (shifts : List Shift) : List ℚ :=
  ((firstOccurrences (shifts.map (fun s => s.start_date))).map (fun d =>
    match shiftOn shifts d with
    | none => []
    | some shift =>
      let inScore : ℚ :=
        match punchOn breaks d "punch_in" with
        | some p => punchScore (combine d (timeOf p.start_time))
                               (combine shift.start_date shift.start_time)
        | none => 0
      let outScore : ℚ :=
        match punchOn breaks d "punch_out" with
        | some p => punchScore (combine (dateOf p.start_time) (timeOf p.start_time))
                               (combine shift.end_date shift.end_time)
        | none => 0
      [inScore, outScore])).flatten

/-- `adherence` before rounding (src/app.py lines 1766-1853): the mean
of all collected scores, defaulting to 100 when there are none. -/
def adherenceOf (breaks : List BreakRecord) (shifts : List Shift) : ℚ :=
  let adherence_scores := breakScores breaks ++ punchScores breaks shifts
  if adherence_scores = [] then 100
  else adherence_scores.sum / (adherence_scores.length : ℚ)

/-- `utilization` before rounding (src/app.py lines 1743-1759). -/
def utilizationOf (breaks : List BreakRecord) (shifts : List Shift) : ℚ :=
  if 0 < shifts.length then
    let expected_working_minutes : ℚ := (shifts.length : ℚ) * 8 * 60
    let expected_break_minutes : Int := (shifts.length : Int) * 75
    let excess_break_minutes : Int := max 0 (totalBreakMinutes breaks - expected_break_minutes)
    let actual_working_time : ℚ := expected_working_minutes - (excess_break_minutes : ℚ)
    min 100 (max 0 ((actual_working_time / expected_working_minutes) * 100))
  else 0

/-- `compensation_minutes` (src/app.py lines 1864-1868): durations of
completed compensation-type events. -/
def compensationMinutes (breaks : List BreakRecord) : Int :=
  ((breaks.filter (fun b => b.break_type == "compensation" && b.end_time.isSome)).map
    (fun b => b.duration_minutes.getD 0)).sum

/-- `conformance` before rounding (src/app.py lines 1855-1877).  Note
the cap at 100 is one-sided: there is no clamp below. -/
def conformanceOf (breaks : List BreakRecord) (shifts : List Shift) : ℚ :=
  if 0 < shifts.length then
    let expected_working_minutes : ℚ := (shifts.length : ℚ) * 8 * 60
    let expected_break_minutes : Int := (shifts.length : Int) * 75
    let excess_break_minutes : Int := max 0 (totalBreakMinutes breaks - expected_break_minutes)
    let actual_working_minutes : ℚ :=
      expected_working_minutes - (excess_break_minutes : ℚ) + (compensationMinutes breaks : ℚ)
    min 100 ((actual_working_minutes / expected_working_minutes) * 100)
  else 0

/-- The computed output record (the dict returned at src/app.py lines
1879-1895).  `break_counts` is modelled as a total map, 0 for a type
with no occurrences. -/
structure MetricsResult where
  total_scheduled_hours : ℚ
  total_break_minutes : Int
  total_allowed_break_minutes : Int
  exceeding_break_minutes : Int
  incidents : Nat
  emergency_count : Nat
  overtime_count : Nat
  overtime_minutes : Int
  total_breaks : Nat
  completed_breaks : Nat
  utilization : ℚ
  adherence : ℚ
  conformance : ℚ
  break_counts : String → Nat
  shifts_count : Nat

/-- The body of `calculate_agent_metrics` (src/app.py lines 1694-1895)
after its two range queries: the pure computation over the fetched
break records and shifts. -/
def metricsOf (breaks : List BreakRecord) (shifts : List Shift) : MetricsResult :=
  let total_scheduled_minutes : ℚ := (shifts.map (fun s => get_duration_hours s * 60)).sum
  let regular_breaks := regularBreaks breaks
  let total_break_minutes := totalBreakMinutes breaks
  let total_allowed_break_minutes : Int := (regular_breaks.map get_allowed_duration).sum
  let exceeding_break_minutes : Int := max 0 (total_break_minutes - total_allowed_break_minutes)
  let incidents := (regular_breaks.filter (fun b => get_effective_overdue_status b)).length
  let emergency_count := (breaks.filter (fun b => b.break_type == "emergency")).length
  let overtime_breaks := breaks.filter (fun b => b.break_type == "overtime" && b.end_time.isSome)
  let break_counts : String → Nat := fun t =>
    if punchTypes.contains t then 0
    else (breaks.filter (fun b => b.break_type == t)).length
  let total_completed_breaks := (regular_breaks.filter (fun b => b.end_time.isSome)).length
  { total_scheduled_hours := round2 (total_scheduled_minutes / 60)
    total_break_minutes := total_break_minutes
    total_allowed_break_minutes := total_allowed_break_minutes
    exceeding_break_minutes := exceeding_break_minutes
    incidents := incidents
    emergency_count := emergency_count
    overtime_count := overtime_breaks.length
    overtime_minutes := (overtime_breaks.map (fun b => b.duration_minutes.getD 0)).sum
    total_breaks := breaks.length
    completed_breaks := total_completed_breaks
    utilization := round1 (utilizationOf breaks shifts)
    adherence := round1 (adherenceOf breaks shifts)
    conformance := round1 (conformanceOf breaks shifts)
    break_counts := break_counts
    shifts_count := shifts.length }

/-- The break query of `calculate_agent_metrics` (src/app.py lines
1698-1702): all of the agent's events whose start date lies in the
requested range — the exact range, with no extension. -/
def breaksInRange (allBreaks : List BreakRecord) (sd ed : Int) : List BreakRecord :=
  allBreaks.filter (fun b => decide (sd ≤ dateOf b.start_time ∧ dateOf b.start_time ≤ ed))

/-- The shift query of `calculate_agent_metrics` (src/app.py lines
1705-1709): the agent's shifts that start in the requested range. -/
def shiftsInRange (allShifts : List Shift) (sd ed : Int) : List Shift :=
  allShifts.filter (fun s => decide (sd ≤ s.start_date ∧ s.start_date ≤ ed))

/-- `calculate_agent_metrics` (src/app.py lines 1694-1895) for one
agent: query the two collections by the requested range, then compute. -/
def calculate_agent_metrics (allBreaks : List BreakRecord) (allShifts : List Shift)
    (sd ed : Int) : MetricsResult :=
  metricsOf (breaksInRange allBreaks sd ed) (shiftsInRange allShifts sd ed)

/-! ## Specification-side definitions

The following definitions are written from the words of the spec and of
the claims (not from the source); the theorems below compare the
source-derived computation against them. -/

/-- `clamp(x, lo, hi)` as used by the spec's utilization formula. -/
def clamp (lo hi x : ℚ) : ℚ := min hi (max lo x)

/-- The spec's nominal shift length in minutes (8-hour shift). -/
def NOMINAL_SHIFT_MINUTES : ℚ := 480

/-- The spec's per-shift break allowance in minutes (this deployment
configures 75, per src/app.py lines 1750 and 1861). -/
def ALLOWED_BREAK_MINUTES : ℚ := 75

/-- Spec-side `regular_break_minutes`: the sum of durations of
completed breaks that are neither working-time types nor punch
events. -/
def specRegularBreakMinutes (breaks : List BreakRecord) : Int :=
  ((breaks.filter (fun b => b.end_time.isSome && !is_working_time_break b
      && !punchTypes.contains b.break_type)).map
    (fun b => b.duration_minutes.getD 0)).sum

/-- Spec-side utilization formula:
`clamp((n*NOMINAL - max(0, rbm - n*ALLOWED)) / (n*NOMINAL) * 100, 0, 100)`,
and 0 when the shift count `n` is 0. -/
def specUtilization (n : ℕ) (rbm : Int) : ℚ :=
  if n = 0 then 0
  else clamp 0 100
    (((n : ℚ) * NOMINAL_SHIFT_MINUTES - max 0 ((rbm : ℚ) - (n : ℚ) * ALLOWED_BREAK_MINUTES))
      / ((n : ℚ) * NOMINAL_SHIFT_MINUTES) * 100)

/-- Spec-side conformance formula:
`min(100, (n*NOMINAL - max(0, rbm - n*ALLOWED) + comp) / (n*NOMINAL) * 100)`,
and 0 when the shift count `n` is 0. -/
def specConformance (n : ℕ) (rbm comp : Int) : ℚ :=
  if n = 0 then 0
  else min 100
    (((n : ℚ) * NOMINAL_SHIFT_MINUTES - max 0 ((rbm : ℚ) - (n : ℚ) * ALLOWED_BREAK_MINUTES)
        + (comp : ℚ))
      / ((n : ℚ) * NOMINAL_SHIFT_MINUTES) * 100)

/-- Spec-side per-break adherence scores: one score per completed
regular break with positive allowed duration — 100 when the actual
duration is within the allowance, `(allowed/actual)*100` otherwise. -/
def specBreakScores (breaks : List BreakRecord) : List ℚ :=
  (breaks.filter (fun b => b.end_time.isSome && !is_working_time_break b
      && !punchTypes.contains b.break_type)).filterMap (fun b =>
    if 0 < get_allowed_duration b then
      some (if b.duration_minutes.getD 0 ≤ get_allowed_duration b then (100 : ℚ)
            else ((get_allowed_duration b : ℚ) / (b.duration_minutes.getD 0 : ℚ)) * 100)
    else none)

/-- Spec-side adherence: the arithmetic mean of the per-break scores
and the per-shift-day punch scores, 100 when no scores exist. -/
def specAdherence (breaks : List BreakRecord) (shifts : List Shift) : ℚ :=
  let scores := specBreakScores breaks ++ punchScores breaks shifts
  if scores = [] then 100 else scores.sum / (scores.length : ℚ)

/-! ## Shift association (src/app.py lines 634-670) -/

/-- Combining step of the SQL `order_by(start_time.desc()).first()`:
keep the record with the later start instant. -/
def pickLater (acc : Option BreakRecord) (b : BreakRecord) : Option BreakRecord :=
  match acc with
  | none => some b
  | some a => if a.start_time < b.start_time then some b else some a

/-- The punch-in anchor query of `find_shift_for_break` (src/app.py
lines 643-648): the agent's latest `punch_in` record whose start
instant is at most the break's start and within the preceding 24
hours. -/
def latestPunchIn (allBreaks : List BreakRecord) (break_time : Int) : Option BreakRecord :=
  (allBreaks.filter (fun b => b.break_type == "punch_in"
    && decide (b.start_time ≤ break_time)
    && decide (break_time - 1440 ≤ b.start_time))).foldl pickLater none

/-- `find_shift_for_break` (src/app.py lines 635-670): prefer the shift
whose date range contains the punch-in anchor's calendar date; fall
back to the first shift whose date range contains the break's calendar
date and whose start instant is within the 24 hours before the break;
`none` when no shift matches.  `allBreaks` stands for the agent's full
break table, which the punch-in query scans. -/
def find_shift_for_break (allBreaks : List BreakRecord) (br : BreakRecord)
    (agent_shifts : List Shift) : Option Shift :=
  let break_time := br.start_time
  let fallback : Option Shift := agent_shifts.find? (fun s =>
    decide (s.start_date ≤ dateOf break_time) && decide (dateOf break_time ≤ s.end_date)
    && decide (0 ≤ break_time - combine s.start_date s.start_time)
    && decide (break_time - combine s.start_date s.start_time ≤ 1440))
  match latestPunchIn allBreaks break_time with
  | some p =>
    match agent_shifts.find? (fun s =>
        decide (s.start_date ≤ dateOf p.start_time)
        && decide (dateOf p.start_time ≤ s.end_date)) with
    | some s => some s
    | none => fallback
  | none => fallback

/-! ## Basic lemmas -/

/-- The engine's regular-break partition coincides with the spec's
"neither working-time nor punch" description. -/
lemma regularBreaks_eq_spec (l : List BreakRecord) :
    regularBreaks l = l.filter (fun b => b.end_time.isSome
      && !is_working_time_break b && !punchTypes.contains b.break_type) := by
  unfold regularBreaks
  apply List.filter_congr
  intro b _
  by_cases hW : b.break_type ∈ WORKING_TIME_BREAKS <;>
    by_cases hP : b.break_type ∈ punchTypes <;>
    cases hE : b.end_time.isSome <;>
    simp [is_working_time_break, List.contains, hW, hP, hE]

/-- The engine's `total_break_minutes` is the spec's
`regular_break_minutes`. -/
lemma totalBreakMinutes_eq_spec (l : List BreakRecord) :
    totalBreakMinutes l = specRegularBreakMinutes l := by
  unfold totalBreakMinutes specRegularBreakMinutes
  rw [regularBreaks_eq_spec]

lemma metricsOf_utilization (B : List BreakRecord) (S : List Shift) :
    (metricsOf B S).utilization = round1 (utilizationOf B S) := rfl

lemma metricsOf_conformance (B : List BreakRecord) (S : List Shift) :
    (metricsOf B S).conformance = round1 (conformanceOf B S) := rfl

lemma metricsOf_adherence (B : List BreakRecord) (S : List Shift) :
    (metricsOf B S).adherence = round1 (adherenceOf B S) := rfl

/-- The unrounded utilization satisfies the spec formula. -/
lemma utilizationOf_eq_spec (B : List BreakRecord) (S : List Shift) :
    utilizationOf B S = specUtilization S.length (specRegularBreakMinutes B) := by
  unfold utilizationOf specUtilization clamp
  rcases Nat.eq_zero_or_pos S.length with h | h
  · simp [h]
  · rw [if_pos h, if_neg (Nat.pos_iff_ne_zero.mp h)]
    rw [← totalBreakMinutes_eq_spec]
    dsimp only
    have hcast : ((max 0 (totalBreakMinutes B - (S.length : Int) * 75) : Int) : ℚ)
        = max 0 ((totalBreakMinutes B : ℚ) - (S.length : ℚ) * ALLOWED_BREAK_MINUTES) := by
      push_cast [ALLOWED_BREAK_MINUTES]
      ring_nf
    rw [hcast]
    have h860 : (S.length : ℚ) * 8 * 60 = (S.length : ℚ) * NOMINAL_SHIFT_MINUTES := by
      norm_num [NOMINAL_SHIFT_MINUTES]; ring
    rw [h860]

/-- The unrounded conformance satisfies the spec formula. -/
lemma conformanceOf_eq_spec (B : List BreakRecord) (S : List Shift) :
    conformanceOf B S
      = specConformance S.length (specRegularBreakMinutes B) (compensationMinutes B) := by
  unfold conformanceOf specConformance
  rcases Nat.eq_zero_or_pos S.length with h | h
  · simp [h]
  · rw [if_pos h, if_neg (Nat.pos_iff_ne_zero.mp h)]
    rw [← totalBreakMinutes_eq_spec]
    dsimp only
    have hcast : ((max 0 (totalBreakMinutes B - (S.length : Int) * 75) : Int) : ℚ)
        = max 0 ((totalBreakMinutes B : ℚ) - (S.length : ℚ) * ALLOWED_BREAK_MINUTES) := by
      push_cast [ALLOWED_BREAK_MINUTES]
      ring_nf
    rw [hcast]
    have h860 : (S.length : ℚ) * 8 * 60 = (S.length : ℚ) * NOMINAL_SHIFT_MINUTES := by
      norm_num [NOMINAL_SHIFT_MINUTES]; ring
    rw [h860]

/-! ## Claim C1 — utilization -/

/-- C1 (amended): the utilization field equals the one-decimal rounding
of `clamp((n*480 - max(0, rbm - n*75)) / (n*480) * 100, 0, 100)` where
`rbm` sums durations of completed breaks that are neither working-time
types nor punch events, and is 0 when the shift count is 0.  (The
original claim additionally asserted that compensation-type events
never affect utilization; that part is false — completed compensation
events are counted inside `rbm`, see the counterexample.) -/
theorem utilization_matches_spec_formula (allB : List BreakRecord) (allS : List Shift)
    (sd ed : Int) :
    (calculate_agent_metrics allB allS sd ed).utilization
      = round1 (specUtilization (shiftsInRange allS sd ed).length
          (specRegularBreakMinutes (breaksInRange allB sd ed))) := by
  rw [calculate_agent_metrics, metricsOf_utilization, utilizationOf_eq_spec]

/-- C1 (counterexample): a completed 200-minute compensation event does
affect utilization — with one shift it drags utilization from 100 down
to 74, because `compensation` is not in `WORKING_TIME_BREAKS` and hence
is summed into the regular break minutes (src/app.py lines 1717,
1721, 1754). -/
theorem utilization_affected_by_compensation :
    (calculate_agent_metrics
        [⟨"compensation", 700, some 900, some 200, false⟩]
        [⟨0, 540, 0, 1020⟩] 0 0).utilization
      ≠ (calculate_agent_metrics [] [⟨0, 540, 0, 1020⟩] 0 0).utilization := by
  have htbm : totalBreakMinutes (breaksInRange
      [⟨"compensation", 700, some 900, some 200, false⟩] 0 0) = 200 := by decide
  have htbm0 : totalBreakMinutes (breaksInRange ([] : List BreakRecord) 0 0) = 0 := by decide
  have hlen : (shiftsInRange [(⟨0, 540, 0, 1020⟩ : Shift)] 0 0).length = 1 := by decide
  rw [calculate_agent_metrics, calculate_agent_metrics, metricsOf_utilization,
    metricsOf_utilization, utilizationOf, utilizationOf, htbm, htbm0, hlen]
  norm_num [round1, round_eq]

/-! ## Claim C2 — conformance -/

/-- C2: the conformance field equals the one-decimal rounding of
`min(100, (n*480 - max(0, rbm - n*75) + comp) / (n*480) * 100)` where
`comp` sums the durations of completed compensation-type events, and is
0 when the shift count is 0. -/
theorem conformance_matches_spec_formula (allB : List BreakRecord) (allS : List Shift)
    (sd ed : Int) :
    (calculate_agent_metrics allB allS sd ed).conformance
      = round1 (specConformance (shiftsInRange allS sd ed).length
          (specRegularBreakMinutes (breaksInRange allB sd ed))
          (compensationMinutes (breaksInRange allB sd ed))) := by
  rw [calculate_agent_metrics, metricsOf_conformance, conformanceOf_eq_spec]

/-! ## Bounds lemmas -/

lemma round1_nonneg {x : ℚ} (h : 0 ≤ x) : 0 ≤ round1 x := by
  unfold round1
  have h1 : (0 : ℤ) ≤ round (10 * x) := by
    rw [round_eq]
    exact Int.le_floor.mpr (by push_cast; linarith)
  exact div_nonneg (by exact_mod_cast h1) (by norm_num)

lemma round1_le_100 {x : ℚ} (h : x ≤ 100) : round1 x ≤ 100 := by
  unfold round1
  have h1 : round (10 * x) ≤ 1000 := by
    rw [round_eq]
    have h2 : (⌊10 * x + 1/2⌋ : ℤ) ≤ ⌊(2001 : ℚ)/2⌋ := Int.floor_le_floor (by linarith)
    have h3 : (⌊(2001 : ℚ)/2⌋ : ℤ) = 1000 := by norm_num
    rw [h3] at h2
    exact h2
  rw [div_le_iff₀ (by norm_num : (0:ℚ) < 10)]
  have h4 : ((round (10 * x) : ℤ) : ℚ) ≤ 1000 := by exact_mod_cast h1
  linarith

lemma utilizationOf_bounds (B : List BreakRecord) (S : List Shift) :
    0 ≤ utilizationOf B S ∧ utilizationOf B S ≤ 100 := by
  unfold utilizationOf
  split
  · constructor
    · exact le_min (by norm_num) (le_max_left 0 _)
    · exact min_le_left _ _
  · norm_num

lemma breakScores_bounds (l : List BreakRecord) :
    ∀ q ∈ breakScores l, 0 ≤ q ∧ q ≤ 100 := by
  intro q hq
  unfold breakScores at hq
  rw [List.mem_filterMap] at hq
  obtain ⟨b, -, hb⟩ := hq
  by_cases h1 : b.end_time.isSome && b.duration_minutes.isSome
  · rw [if_pos h1] at hb
    by_cases h2 : 0 < get_allowed_duration b
    · rw [if_pos h2, Option.some_inj] at hb
      by_cases h3 : b.duration_minutes.getD 0 ≤ get_allowed_duration b
      · rw [if_pos h3] at hb; subst hb; norm_num
      · rw [if_neg h3] at hb
        subst hb
        push_neg at h3
        have hd : (0 : ℚ) < (b.duration_minutes.getD 0 : ℚ) := by
          exact_mod_cast lt_trans h2 h3
        have ha : (0 : ℚ) < (get_allowed_duration b : ℚ) := by exact_mod_cast h2
        constructor
        · positivity
        · have : (get_allowed_duration b : ℚ) / (b.duration_minutes.getD 0 : ℚ) ≤ 1 := by
            rw [div_le_one hd]
            exact_mod_cast le_of_lt h3
          nlinarith
    · rw [if_neg h2] at hb; exact absurd hb (by simp)
  · rw [if_neg h1] at hb; exact absurd hb (by simp)

lemma punchScore_bounds (a s : Int) :
    0 ≤ punchScore a s ∧ punchScore a s ≤ 100 := by
  unfold punchScore
  dsimp only
  set diff : ℚ := |((a - s : Int) : ℚ)| with hdiff
  have hd : 0 ≤ diff := abs_nonneg _
  split
  · norm_num
  · constructor
    · exact le_max_left 0 _
    · apply max_le (by norm_num)
      have : (30 - diff) / 30 ≤ 1 := by
        rw [div_le_one (by norm_num : (0:ℚ) < 30)]
        linarith
      nlinarith

lemma punchScores_bounds (B : List BreakRecord) (S : List Shift) :
    ∀ q ∈ punchScores B S, 0 ≤ q ∧ q ≤ 100 := by
  intro q hq
  unfold punchScores at hq
  rw [List.mem_flatten] at hq
  obtain ⟨l, hl, hql⟩ := hq
  rw [List.mem_map] at hl
  obtain ⟨d, -, hd⟩ := hl
  subst hd
  rcases hs : shiftOn S d with - | shift
  · rw [hs] at hql; simp at hql
  · rw [hs] at hql
    simp only [List.mem_cons, List.mem_singleton] at hql
    rcases hql with h | h | h
    · subst h
      rcases hp : punchOn B d "punch_in" with - | p
      · exact ⟨le_refl 0, by norm_num⟩
      · exact punchScore_bounds _ _
    · subst h
      rcases hp : punchOn B d "punch_out" with - | p
      · exact ⟨le_refl 0, by norm_num⟩
      · exact punchScore_bounds _ _
    · simp at h

lemma adherenceOf_bounds (B : List BreakRecord) (S : List Shift) :
    0 ≤ adherenceOf B S ∧ adherenceOf B S ≤ 100 := by
  unfold adherenceOf
  dsimp only
  set scores := breakScores B ++ punchScores B S with hscores
  have hall : ∀ q ∈ scores, 0 ≤ q ∧ q ≤ 100 := by
    intro q hq
    rw [hscores, List.mem_append] at hq
    rcases hq with h | h
    · exact breakScores_bounds B q h
    · exact punchScores_bounds B S q h
  split
  · norm_num
  · next hne =>
    have hlen : 0 < scores.length := List.length_pos.mpr hne
    have hlenq : (0 : ℚ) < (scores.length : ℚ) := by exact_mod_cast hlen
    constructor
    · apply div_nonneg _ (le_of_lt hlenq)
      exact List.sum_nonneg (fun q hq => (hall q hq).1)
    · rw [div_le_iff₀ hlenq]
      have := List.sum_le_card_nsmul scores 100 (fun q hq => (hall q hq).2)
      simpa [nsmul_eq_mul, mul_comm] using this

lemma conformanceOf_le_100 (B : List BreakRecord) (S : List Shift) :
    conformanceOf B S ≤ 100 := by
  unfold conformanceOf
  split
  · exact min_le_left _ _
  · norm_num

/-! ## Claim C4 — bounds -/

/-- C4 (amended): utilization and adherence always lie within
`[0, 100]`, and conformance is always at most 100; but conformance has
no lower clamp (src/app.py line 1875 caps only from above) and can be
negative — see the counterexample. -/
theorem metrics_bounds (allB : List BreakRecord) (allS : List Shift) (sd ed : Int) :
    0 ≤ (calculate_agent_metrics allB allS sd ed).utilization
    ∧ (calculate_agent_metrics allB allS sd ed).utilization ≤ 100
    ∧ 0 ≤ (calculate_agent_metrics allB allS sd ed).adherence
    ∧ (calculate_agent_metrics allB allS sd ed).adherence ≤ 100
    ∧ (calculate_agent_metrics allB allS sd ed).conformance ≤ 100 := by
  rw [calculate_agent_metrics, metricsOf_utilization, metricsOf_adherence,
    metricsOf_conformance]
  obtain ⟨hu0, hu1⟩ := utilizationOf_bounds (breaksInRange allB sd ed) (shiftsInRange allS sd ed)
  obtain ⟨ha0, ha1⟩ := adherenceOf_bounds (breaksInRange allB sd ed) (shiftsInRange allS sd ed)
  have hc := conformanceOf_le_100 (breaksInRange allB sd ed) (shiftsInRange allS sd ed)
  exact ⟨round1_nonneg hu0, round1_le_100 hu1, round1_nonneg ha0, round1_le_100 ha1,
    round1_le_100 hc⟩

/-- C4 (counterexample): the conformance field is not bounded below by
0 — with one shift and a completed 1000-minute regular break the excess
break time (925 minutes) exceeds the expected working time (480), and
conformance evaluates to -92.7. -/
theorem conformance_can_be_negative :
    (calculate_agent_metrics
        [⟨"lunch", 600, some 1600, some 1000, true⟩]
        [⟨0, 540, 0, 1020⟩] 0 0).conformance < 0 := by
  have htbm : totalBreakMinutes (breaksInRange
      [⟨"lunch", 600, some 1600, some 1000, true⟩] 0 0) = 1000 := by decide
  have hcomp : compensationMinutes (breaksInRange
      [⟨"lunch", 600, some 1600, some 1000, true⟩] 0 0) = 0 := by decide
  have hlen : (shiftsInRange [(⟨0, 540, 0, 1020⟩ : Shift)] 0 0).length = 1 := by decide
  rw [calculate_agent_metrics, metricsOf_conformance, conformanceOf, htbm, hcomp, hlen]
  norm_num [round1, round_eq]

lemma round1_zero : round1 0 = 0 := by
  simp [round1]

lemma round1_100 : round1 100 = 100 := by
  rw [round1, round_eq]
  norm_num

/-! ## Claim C5 — zero-shift behaviour -/

/-- C5 (amended): for an agent with zero shifts in the requested range,
utilization and conformance are 0 (and the computation is total, hence
never raises); adherence defaults to 100 and incidents to 0 only when
the agent additionally has no break events in range — break-duration
adherence scores and stored overdue flags are counted independently of
shifts (src/app.py lines 1727 and 1768-1781). -/
theorem no_shift_defaults (allB : List BreakRecord) (allS : List Shift) (sd ed : Int)
    (hs : shiftsInRange allS sd ed = []) :
    (calculate_agent_metrics allB allS sd ed).utilization = 0
    ∧ (calculate_agent_metrics allB allS sd ed).conformance = 0
    ∧ (breaksInRange allB sd ed = [] →
        (calculate_agent_metrics allB allS sd ed).adherence = 100
        ∧ (calculate_agent_metrics allB allS sd ed).incidents = 0) := by
  refine ⟨?_, ?_, ?_⟩
  · rw [calculate_agent_metrics, hs, metricsOf_utilization]
    simp [utilizationOf, round1_zero]
  · rw [calculate_agent_metrics, hs, metricsOf_conformance]
    simp [conformanceOf, round1_zero]
  · intro hb
    constructor
    · rw [calculate_agent_metrics, hs, hb, metricsOf_adherence]
      simp [adherenceOf, breakScores, regularBreaks, punchScores, firstOccurrences,
        round1_100]
    · rw [calculate_agent_metrics, hs, hb]
      rfl

/-- C5 (witness): a concrete instantiation of `no_shift_defaults` — an
agent whose only shift and only break both fall outside the requested
range. -/
theorem no_shift_defaults_witness :
    shiftsInRange [(⟨5, 540, 5, 1020⟩ : Shift)] 0 0 = []
    ∧ breaksInRange [(⟨"lunch", 9000, some 9060, some 60, true⟩ : BreakRecord)] 0 0 = []
    ∧ ((calculate_agent_metrics [⟨"lunch", 9000, some 9060, some 60, true⟩]
          [⟨5, 540, 5, 1020⟩] 0 0).utilization = 0
        ∧ (calculate_agent_metrics [⟨"lunch", 9000, some 9060, some 60, true⟩]
          [⟨5, 540, 5, 1020⟩] 0 0).conformance = 0
        ∧ (breaksInRange [(⟨"lunch", 9000, some 9060, some 60, true⟩ : BreakRecord)] 0 0 = [] →
            (calculate_agent_metrics [⟨"lunch", 9000, some 9060, some 60, true⟩]
              [⟨5, 540, 5, 1020⟩] 0 0).adherence = 100
            ∧ (calculate_agent_metrics [⟨"lunch", 9000, some 9060, some 60, true⟩]
              [⟨5, 540, 5, 1020⟩] 0 0).incidents = 0)) :=
  ⟨by decide, by decide,
    no_shift_defaults [⟨"lunch", 9000, some 9060, some 60, true⟩] [⟨5, 540, 5, 1020⟩] 0 0
      (by decide)⟩

/-- C5 (counterexample): with zero shifts but one completed overdue
60-minute lunch break in range, adherence is 50 (not 100) and incidents
is 1 (not 0): the no-shift defaults do not hold whenever break events
exist. -/
theorem no_shift_defaults_fail_with_breaks :
    (calculate_agent_metrics [⟨"lunch", 600, some 660, some 60, true⟩] [] 0 0).shifts_count = 0
    ∧ (calculate_agent_metrics [⟨"lunch", 600, some 660, some 60, true⟩] [] 0 0).incidents = 1
    ∧ (calculate_agent_metrics [⟨"lunch", 600, some 660, some 60, true⟩] [] 0 0).adherence
        ≠ 100 := by
  refine ⟨by decide, by decide, ?_⟩
  have h1 : breaksInRange [(⟨"lunch", 600, some 660, some 60, true⟩ : BreakRecord)] 0 0
      = [⟨"lunch", 600, some 660, some 60, true⟩] := by decide
  have h2 : regularBreaks [(⟨"lunch", 600, some 660, some 60, true⟩ : BreakRecord)]
      = [⟨"lunch", 600, some 660, some 60, true⟩] := by decide
  have h3 : get_allowed_duration (⟨"lunch", 600, some 660, some 60, true⟩ : BreakRecord)
      = 30 := by decide
  rw [calculate_agent_metrics, metricsOf_adherence, h1, adherenceOf]
  have hbs : breakScores [(⟨"lunch", 600, some 660, some 60, true⟩ : BreakRecord)]
      = [(30 : ℚ) / 60 * 100] := by
    rw [breakScores, h2]
    simp [h3, List.filterMap]
  have hps : punchScores [(⟨"lunch", 600, some 660, some 60, true⟩ : BreakRecord)]
      (shiftsInRange [] 0 0) = [] := rfl
  rw [hbs, hps]
  norm_num [round1, round_eq]

/-! ## Claim C6 — incidents count exactly the overdue regular breaks -/

lemma metricsOf_incidents (B : List BreakRecord) (S : List Shift) :
    (metricsOf B S).incidents
      = ((regularBreaks B).filter (fun b => get_effective_overdue_status b)).length := rfl

/-- C6: whenever the stored `is_overdue` flags are the ones the
application writes (`overdueFlagFor`, src/app.py lines 1044-1049 and
1198-1207) and completed records carry a duration, the incidents field
counts exactly the completed regular breaks whose actual duration
exceeds the allowed duration; working-time breaks are excluded by the
filter, so they are never counted, whatever their duration. -/
theorem incidents_count_overdue (allB : List BreakRecord) (allS : List Shift) (sd ed : Int)
    (hflag : ∀ b ∈ allB, b.is_overdue = overdueFlagFor b)
    (hdur : ∀ b ∈ allB, b.end_time.isSome → b.duration_minutes.isSome) :
    (calculate_agent_metrics allB allS sd ed).incidents
      = ((breaksInRange allB sd ed).filter (fun b =>
          b.end_time.isSome && !is_working_time_break b
          && !punchTypes.contains b.break_type
          && decide (get_allowed_duration b < b.duration_minutes.getD 0))).length := by
  rw [calculate_agent_metrics, metricsOf_incidents]
  rw [regularBreaks_eq_spec, List.filter_filter]
  apply congrArg List.length
  apply List.filter_congr
  intro b hb
  have hmem : b ∈ allB := (List.mem_filter.mp hb).1
  by_cases hW : b.break_type ∈ WORKING_TIME_BREAKS
  · simp [get_effective_overdue_status, is_working_time_break, List.contains, hW]
  · by_cases hP : b.break_type ∈ punchTypes
    · simp [List.contains, hP]
    · by_cases hE : b.end_time.isSome
      · have hD : b.duration_minutes.isSome := hdur b hmem hE
        have hF := hflag b hmem
        simp [get_effective_overdue_status, is_working_time_break, List.contains, hW, hP,
          hE, hF, overdueFlagFor, hD]
      · simp [hE]

/-- C6 (witness): concrete records — an overdue 60-minute lunch and a
long coaching session — the incidents field is exactly the singleton
count of the overdue lunch. -/
theorem incidents_count_overdue_witness :
    (∀ b ∈ [(⟨"lunch", 600, some 660, some 60, true⟩ : BreakRecord),
            ⟨"coaching_aya", 700, some 1000, some 300, false⟩],
        b.is_overdue = overdueFlagFor b)
    ∧ (∀ b ∈ [(⟨"lunch", 600, some 660, some 60, true⟩ : BreakRecord),
            ⟨"coaching_aya", 700, some 1000, some 300, false⟩],
        b.end_time.isSome → b.duration_minutes.isSome)
    ∧ (calculate_agent_metrics
        [⟨"lunch", 600, some 660, some 60, true⟩,
         ⟨"coaching_aya", 700, some 1000, some 300, false⟩] [] 0 0).incidents
      = ((breaksInRange
          [(⟨"lunch", 600, some 660, some 60, true⟩ : BreakRecord),
           ⟨"coaching_aya", 700, some 1000, some 300, false⟩] 0 0).filter (fun b =>
          b.end_time.isSome && !is_working_time_break b
          && !punchTypes.contains b.break_type
          && decide (get_allowed_duration b < b.duration_minutes.getD 0))).length :=
  ⟨by decide, by decide,
    incidents_count_overdue
      [⟨"lunch", 600, some 660, some 60, true⟩,
       ⟨"coaching_aya", 700, some 1000, some 300, false⟩] [] 0 0
      (by decide) (by decide)⟩

/-! ## Claim C7 — the metrics queries use the exact requested range -/

/-- C7 (amended): the metrics computation consumes exactly the events
whose start date falls within the requested range — there is no ±1-day
extension (the extension exists only in the breaks-history display
route, src/app.py lines 495-515, not in `calculate_agent_metrics`,
whose event query at lines 1698-1702 uses the exact bounds).  Adding
any event dated outside the exact range, in particular one dated one
day after the range end, leaves the whole result unchanged. -/
theorem metrics_ignore_out_of_range_events (allB : List BreakRecord) (allS : List Shift)
    (sd ed : Int) (b : BreakRecord)
    (hout : ¬(sd ≤ dateOf b.start_time ∧ dateOf b.start_time ≤ ed)) :
    calculate_agent_metrics (b :: allB) allS sd ed
      = calculate_agent_metrics allB allS sd ed := by
  unfold calculate_agent_metrics
  congr 1
  unfold breaksInRange
  rw [List.filter_cons]
  simp [hout]

/-- C7 (witness): a lunch break dated one day after the range end
(instant 2040 is on day 1, range is day 0 to day 0) contributes nothing
to the computed metrics. -/
theorem metrics_ignore_out_of_range_events_witness :
    ¬((0 : Int) ≤ dateOf (2040 : Int) ∧ dateOf (2040 : Int) ≤ 0)
    ∧ calculate_agent_metrics [⟨"lunch", 2040, some 2070, some 30, true⟩] [] 0 0
        = calculate_agent_metrics [] [] 0 0 :=
  ⟨by decide,
    metrics_ignore_out_of_range_events [] [] 0 0
      ⟨"lunch", 2040, some 2070, some 30, true⟩ (by decide)⟩

/-- C7 (counterexample): against the original claim, an event dated one
day after the range end does not contribute to the break totals — with
a single completed 30-minute lunch on day 1 and the range day 0 to
day 0, every break total of the result is zero. -/
theorem next_day_event_not_counted :
    (calculate_agent_metrics [⟨"lunch", 2040, some 2070, some 30, true⟩] [] 0 0).total_break_minutes = 0
    ∧ (calculate_agent_metrics [⟨"lunch", 2040, some 2070, some 30, true⟩] [] 0 0).total_breaks = 0
    ∧ (calculate_agent_metrics [⟨"lunch", 2040, some 2070, some 30, true⟩] [] 0 0).completed_breaks = 0 := by
  refine ⟨by decide, by decide, by decide⟩

/-! ## Claim C8 — overnight shift association -/

lemma foldl_pickLater_mem (l : List BreakRecord) :
    ∀ (acc : Option BreakRecord) (p : BreakRecord),
      l.foldl pickLater acc = some p → p ∈ l ∨ acc = some p := by
  induction l with
  | nil => intro acc p h; exact Or.inr h
  | cons x xs ih =>
    intro acc p h
    rw [List.foldl_cons] at h
    rcases ih (pickLater acc x) p h with hmem | hacc
    · exact Or.inl (List.mem_cons_of_mem _ hmem)
    · cases acc with
      | none =>
        simp only [pickLater, Option.some_inj] at hacc
        exact Or.inl (hacc ▸ List.mem_cons_self x xs)
      | some a =>
        simp only [pickLater] at hacc
        by_cases hlt : a.start_time < x.start_time
        · rw [if_pos hlt, Option.some_inj] at hacc
          exact Or.inl (hacc ▸ List.mem_cons_self x xs)
        · rw [if_neg hlt] at hacc
          exact Or.inr hacc

/-- A punch-in anchor returned by the query lies inside the 24-hour
lookback window ending at the break's start. -/
lemma latestPunchIn_window (allB : List BreakRecord) (bt : Int) (p : BreakRecord)
    (h : latestPunchIn allB bt = some p) :
    p.start_time ≤ bt ∧ bt - 1440 ≤ p.start_time := by
  unfold latestPunchIn at h
  rcases foldl_pickLater_mem _ none p h with hmem | hacc
  · rw [List.mem_filter] at hmem
    have h2 := hmem.2
    simp only [Bool.and_eq_true, decide_eq_true_eq] at h2
    exact ⟨h2.1.2, h2.2⟩
  · exact absurd hacc (by simp)

/-- C8: for a shift running 22:00 on day `d` to 06:00 on day `d+1`,
listed first among the agent's shifts, a break starting 01:00 on day
`d+1` is associated with that shift — whatever punch-in records exist
(any anchor found lies within 24 hours before the break, so its date is
day `d` or `d+1`, inside the shift's date span) and, when no anchor
exists, through the date-range-plus-24-hour fallback. -/
theorem overnight_break_groups_with_day1_shift (d : Int) (allBreaks : List BreakRecord)
    (br : BreakRecord) (rest : List Shift) (hbr : br.start_time = (d + 1) * 1440 + 60) :
    find_shift_for_break allBreaks br (⟨d, 1320, d + 1, 360⟩ :: rest)
      = some ⟨d, 1320, d + 1, 360⟩ := by
  unfold find_shift_for_break
  dsimp only
  have hfall : (List.find? (fun s =>
      decide (s.start_date ≤ dateOf br.start_time) && decide (dateOf br.start_time ≤ s.end_date)
      && decide (0 ≤ br.start_time - combine s.start_date s.start_time)
      && decide (br.start_time - combine s.start_date s.start_time ≤ 1440))
      ((⟨d, 1320, d + 1, 360⟩ : Shift) :: rest))
      = some ⟨d, 1320, d + 1, 360⟩ := by
    apply List.find?_cons_of_pos
    simp only [Bool.and_eq_true, decide_eq_true_eq, dateOf, combine, hbr]
    omega
  rcases hp : latestPunchIn allBreaks br.start_time with - | p
  · exact hfall
  · obtain ⟨hup, hlow⟩ := latestPunchIn_window allBreaks br.start_time p hp
    rw [hbr] at hup hlow
    have hfind : (List.find? (fun s =>
        decide (s.start_date ≤ dateOf p.start_time)
        && decide (dateOf p.start_time ≤ s.end_date))
        ((⟨d, 1320, d + 1, 360⟩ : Shift) :: rest))
        = some ⟨d, 1320, d + 1, 360⟩ := by
      apply List.find?_cons_of_pos
      simp only [Bool.and_eq_true, decide_eq_true_eq, dateOf]
      omega
    simp only [hfind]

/-- C8 (witness): `overnight_break_groups_with_day1_shift` at day 0,
once with a punch-in anchor at 22:05 of day 0 and once with no punch
records at all. -/
theorem overnight_break_groups_with_day1_shift_witness :
    (⟨"short", 1500, some 1510, some 10, false⟩ : BreakRecord).start_time
        = (0 + 1) * 1440 + 60
    ∧ find_shift_for_break [⟨"punch_in", 1325, some 1325, some 0, false⟩]
        ⟨"short", 1500, some 1510, some 10, false⟩ [⟨0, 1320, 0 + 1, 360⟩]
        = some ⟨0, 1320, 0 + 1, 360⟩
    ∧ find_shift_for_break []
        ⟨"short", 1500, some 1510, some 10, false⟩ [⟨0, 1320, 0 + 1, 360⟩]
        = some ⟨0, 1320, 0 + 1, 360⟩ := by
  refine ⟨by decide, ?_, ?_⟩
  · exact overnight_break_groups_with_day1_shift 0
      [⟨"punch_in", 1325, some 1325, some 0, false⟩]
      ⟨"short", 1500, some 1510, some 10, false⟩ [] (by decide)
  · exact overnight_break_groups_with_day1_shift 0 []
      ⟨"short", 1500, some 1510, some 10, false⟩ [] (by decide)

/-! ## Claim C3 — adherence formula -/

lemma breakScores_eq_spec (l : List BreakRecord)
    (hdur : ∀ b ∈ l, b.end_time.isSome → b.duration_minutes.isSome) :
    breakScores l = specBreakScores l := by
  unfold breakScores specBreakScores
  rw [regularBreaks_eq_spec]
  apply List.filterMap_congr
  intro b hb
  rw [List.mem_filter] at hb
  obtain ⟨hmem, hpred⟩ := hb
  simp only [Bool.and_eq_true] at hpred
  have hend : b.end_time.isSome = true := hpred.1.1
  have hD : b.duration_minutes.isSome = true := hdur b hmem hend
  rw [if_pos (by rw [hend, hD]; rfl)]

/-- C3: the adherence field is the one-decimal rounding of the
arithmetic mean of the per-break scores (one per completed regular
break with positive allowed duration: 100 when actual ≤ allowed, else
`(allowed/actual)*100`) together with the per-shift-day punch scores
(punch-in against the shift start, punch-out against the shift end, 100
inside the 5-minute grace, else `max(0, (30-diff)/30*100)`, and 0 when
the punch never occurred on that shift day); 100 when no scores exist.
The hypothesis records the application invariant that completed records
carry a duration (src/app.py lines 1040-1042 and 1176-1184). -/
theorem adherence_matches_spec_formula (allB : List BreakRecord) (allS : List Shift)
    (sd ed : Int)
    (hdur : ∀ b ∈ allB, b.end_time.isSome → b.duration_minutes.isSome) :
    (calculate_agent_metrics allB allS sd ed).adherence
      = round1 (specAdherence (breaksInRange allB sd ed) (shiftsInRange allS sd ed)) := by
  rw [calculate_agent_metrics, metricsOf_adherence]
  unfold adherenceOf specAdherence
  have hd2 : ∀ b ∈ breaksInRange allB sd ed,
      b.end_time.isSome → b.duration_minutes.isSome := by
    intro b hb hend
    rw [breaksInRange] at hb
    exact hdur b (List.mem_filter.mp hb).1 hend
  rw [breakScores_eq_spec _ hd2]

/-- C3 (witness): `adherence_matches_spec_formula` on an overlong lunch
break, a punctual punch-in, and one shift. -/
theorem adherence_matches_spec_formula_witness :
    (∀ b ∈ [(⟨"lunch", 600, some 660, some 60, true⟩ : BreakRecord),
            ⟨"punch_in", 542, some 542, some 0, false⟩],
        b.end_time.isSome → b.duration_minutes.isSome)
    ∧ (calculate_agent_metrics
        [⟨"lunch", 600, some 660, some 60, true⟩,
         ⟨"punch_in", 542, some 542, some 0, false⟩]
        [⟨0, 540, 0, 1020⟩] 0 0).adherence
      = round1 (specAdherence
          (breaksInRange
            [(⟨"lunch", 600, some 660, some 60, true⟩ : BreakRecord),
             ⟨"punch_in", 542, some 542, some 0, false⟩] 0 0)
          (shiftsInRange [(⟨0, 540, 0, 1020⟩ : Shift)] 0 0)) :=
  ⟨by decide,
    adherence_matches_spec_formula
      [⟨"lunch", 600, some 660, some 60, true⟩,
       ⟨"punch_in", 542, some 542, some 0, false⟩]
      [⟨0, 540, 0, 1020⟩] 0 0 (by decide)⟩

/-! ## Claim C9 — attendance events and break counts -/

lemma metricsOf_total_breaks (B : List BreakRecord) (S : List Shift) :
    (metricsOf B S).total_breaks = B.length := rfl

lemma metricsOf_total_break_minutes (B : List BreakRecord) (S : List Shift) :
    (metricsOf B S).total_break_minutes = totalBreakMinutes B := rfl

lemma metricsOf_break_counts (B : List BreakRecord) (S : List Shift) (t : String) :
    (metricsOf B S).break_counts t
      = if punchTypes.contains t then 0
        else (B.filter (fun b => b.break_type == t)).length := rfl

lemma totalBreakMinutes_cons_punch (b : BreakRecord) (R : List BreakRecord)
    (hty : b.break_type ∈ punchTypes) :
    totalBreakMinutes (b :: R) = totalBreakMinutes R := by
  unfold totalBreakMinutes regularBreaks
  rw [List.filter_cons]
  have hmem : b.break_type ∈ WORKING_TIME_BREAKS ++ punchTypes :=
    List.mem_append.mpr (Or.inr hty)
  simp [List.contains, hmem]

lemma breaksInRange_cons (allB : List BreakRecord) (sd ed : Int) (b : BreakRecord) :
    breaksInRange (b :: allB) sd ed
      = if sd ≤ dateOf b.start_time ∧ dateOf b.start_time ≤ ed
        then b :: breaksInRange allB sd ed else breaksInRange allB sd ed := by
  unfold breaksInRange
  rw [List.filter_cons]
  by_cases h : sd ≤ dateOf b.start_time ∧ dateOf b.start_time ≤ ed <;> simp [h]

/-- C9 (amended): attendance events (`punch_in`, `punch_out`) are
excluded from `break_counts` and from `total_break_minutes`, but the
`total_breaks` field is the raw count of all fetched records and does
include them (src/app.py line 1888 returns `len(breaks)`). -/
theorem attendance_events_not_breaks (allB : List BreakRecord) (allS : List Shift)
    (sd ed : Int) (b : BreakRecord) (hty : b.break_type ∈ punchTypes) :
    (calculate_agent_metrics (b :: allB) allS sd ed).total_break_minutes
      = (calculate_agent_metrics allB allS sd ed).total_break_minutes
    ∧ (∀ t, (calculate_agent_metrics (b :: allB) allS sd ed).break_counts t
        = (calculate_agent_metrics allB allS sd ed).break_counts t)
    ∧ (calculate_agent_metrics allB allS sd ed).break_counts "punch_in" = 0
    ∧ (calculate_agent_metrics allB allS sd ed).break_counts "punch_out" = 0
    ∧ ((sd ≤ dateOf b.start_time ∧ dateOf b.start_time ≤ ed) →
        (calculate_agent_metrics (b :: allB) allS sd ed).total_breaks
          = (calculate_agent_metrics allB allS sd ed).total_breaks + 1) := by
  refine ⟨?_, ?_, rfl, rfl, ?_⟩
  · rw [calculate_agent_metrics, calculate_agent_metrics,
      metricsOf_total_break_minutes, metricsOf_total_break_minutes, breaksInRange_cons]
    by_cases h : sd ≤ dateOf b.start_time ∧ dateOf b.start_time ≤ ed
    · rw [if_pos h, totalBreakMinutes_cons_punch _ _ hty]
    · rw [if_neg h]
  · intro t
    rw [calculate_agent_metrics, calculate_agent_metrics,
      metricsOf_break_counts, metricsOf_break_counts, breaksInRange_cons]
    by_cases hp : punchTypes.contains t
    · rw [if_pos hp, if_pos hp]
    · rw [if_neg hp, if_neg hp]
      by_cases h : sd ≤ dateOf b.start_time ∧ dateOf b.start_time ≤ ed
      · rw [if_pos h, List.filter_cons]
        have hne : (b.break_type == t) = false := by
          have : b.break_type ≠ t := by
            intro heq
            exact hp (by rw [← heq] at *; simpa [List.contains] using hty)
          simp [this]
        simp [hne]
      · rw [if_neg h]
  · intro h
    rw [calculate_agent_metrics, calculate_agent_metrics,
      metricsOf_total_breaks, metricsOf_total_breaks, breaksInRange_cons, if_pos h]
    rfl

/-- C9 (witness): a punch-in on day 0 with range day 0 — excluded from
`break_counts` and `total_break_minutes` yet adding one to
`total_breaks`. -/
theorem attendance_events_not_breaks_witness :
    (⟨"punch_in", 540, some 540, some 0, false⟩ : BreakRecord).break_type ∈ punchTypes
    ∧ ((calculate_agent_metrics
          [(⟨"punch_in", 540, some 540, some 0, false⟩ : BreakRecord)] [] 0 0).total_break_minutes
        = (calculate_agent_metrics [] [] 0 0).total_break_minutes
      ∧ (∀ t, (calculate_agent_metrics
            [(⟨"punch_in", 540, some 540, some 0, false⟩ : BreakRecord)] [] 0 0).break_counts t
          = (calculate_agent_metrics [] [] 0 0).break_counts t)
      ∧ (calculate_agent_metrics [] [] 0 0).break_counts "punch_in" = 0
      ∧ (calculate_agent_metrics [] [] 0 0).break_counts "punch_out" = 0
      ∧ (((0:Int) ≤ dateOf 540 ∧ dateOf 540 ≤ 0) →
          (calculate_agent_metrics
            [(⟨"punch_in", 540, some 540, some 0, false⟩ : BreakRecord)] [] 0 0).total_breaks
            = (calculate_agent_metrics [] [] 0 0).total_breaks + 1)) :=
  ⟨by decide,
    attendance_events_not_breaks [] [] 0 0
      ⟨"punch_in", 540, some 540, some 0, false⟩ (by decide)⟩

/-- C9 (counterexample): against the original claim, a `punch_in`
record is counted in `total_breaks`: with a single punch-in event and
no other records, `total_breaks` is 1, not 0. -/
theorem punch_counted_in_total_breaks :
    (calculate_agent_metrics [⟨"punch_in", 540, some 540, some 0, false⟩] [] 0 0).total_breaks = 1
    ∧ (calculate_agent_metrics
        [⟨"punch_in", 540, some 540, some 0, false⟩] [] 0 0).total_breaks ≠ 0 := by
  exact ⟨by decide, by decide⟩

/-! ## Claim C10 — unrecognized break types default to 15 minutes -/

lemma metricsOf_total_allowed (B : List BreakRecord) (S : List Shift) :
    (metricsOf B S).total_allowed_break_minutes
      = ((regularBreaks B).map get_allowed_duration).sum := rfl

lemma lookup_none_not_special (t : String) (h : BREAK_DURATIONS.lookup t = none) :
    t ∉ WORKING_TIME_BREAKS ∧ t ∉ punchTypes := by
  constructor
  · intro hmem
    rcases (show t = "coaching_aya" ∨ t = "coaching_mostafa" ∨ t = "meeting_team_leader"
        ∨ t = "overtime" by simpa [WORKING_TIME_BREAKS] using hmem) with rfl | rfl | rfl | rfl <;>
      exact absurd h (by decide)
  · intro hmem
    rcases (show t = "punch_in" ∨ t = "punch_out"
        by simpa [punchTypes] using hmem) with rfl | rfl <;>
      exact absurd h (by decide)

/-- C10: a break whose type tag is not in the configured duration table
gets the default allowance of 15 minutes and is treated as an ordinary
regular break rather than rejected: it adds 15 to
`total_allowed_break_minutes`, its duration to `total_break_minutes`,
and contributes an adherence score computed against the 15-minute
allowance. -/
theorem unknown_break_type_defaults_to_15 (allB : List BreakRecord) (allS : List Shift)
    (sd ed : Int) (b : BreakRecord) (dur : Int)
    (hlookup : BREAK_DURATIONS.lookup b.break_type = none)
    (hdur : b.duration_minutes = some dur)
    (hend : b.end_time.isSome)
    (hin : sd ≤ dateOf b.start_time ∧ dateOf b.start_time ≤ ed) :
    get_allowed_duration b = 15
    ∧ (calculate_agent_metrics (b :: allB) allS sd ed).total_allowed_break_minutes
        = 15 + (calculate_agent_metrics allB allS sd ed).total_allowed_break_minutes
    ∧ (calculate_agent_metrics (b :: allB) allS sd ed).total_break_minutes
        = dur + (calculate_agent_metrics allB allS sd ed).total_break_minutes
    ∧ breakScores (breaksInRange (b :: allB) sd ed)
        = (if dur ≤ 15 then (100 : ℚ) else (15 : ℚ) / (dur : ℚ) * 100)
            :: breakScores (breaksInRange allB sd ed) := by
  obtain ⟨hW, hP⟩ := lookup_none_not_special _ hlookup
  have h15 : get_allowed_duration b = 15 := by
    unfold get_allowed_duration; rw [hlookup]; rfl
  have hnotin : b.break_type ∉ WORKING_TIME_BREAKS ++ punchTypes := by
    rw [List.mem_append]; rintro (h | h) <;> [exact hW h; exact hP h]
  have hreg : ∀ R, regularBreaks (b :: R) = b :: regularBreaks R := by
    intro R
    unfold regularBreaks
    rw [List.filter_cons]
    simp [List.contains, hnotin, hend]
  refine ⟨h15, ?_, ?_, ?_⟩
  · rw [calculate_agent_metrics, calculate_agent_metrics,
      metricsOf_total_allowed, metricsOf_total_allowed, breaksInRange_cons, if_pos hin,
      hreg, List.map_cons, List.sum_cons, h15]
  · rw [calculate_agent_metrics, calculate_agent_metrics,
      metricsOf_total_break_minutes, metricsOf_total_break_minutes, breaksInRange_cons,
      if_pos hin]
    unfold totalBreakMinutes
    rw [hreg, List.map_cons, List.sum_cons, hdur]
    rfl
  · rw [breaksInRange_cons, if_pos hin]
    unfold breakScores
    rw [hreg, List.filterMap_cons]
    have hpos : 0 < get_allowed_duration b := by rw [h15]; norm_num
    simp only [hend, hdur, Option.isSome_some, Bool.and_true, Bool.true_and, if_true,
      Option.getD_some, h15, if_pos hpos]
    norm_num

/-- C10 (witness): a completed 50-minute break of unrecognized type
`"mystery"` — allowance defaults to 15 and the break is scored
`15/50*100`. -/
theorem unknown_break_type_defaults_to_15_witness :
    BREAK_DURATIONS.lookup "mystery" = none
    ∧ (⟨"mystery", 600, some 650, some 50, false⟩ : BreakRecord).duration_minutes = some 50
    ∧ (⟨"mystery", 600, some 650, some 50, false⟩ : BreakRecord).end_time.isSome
    ∧ ((0:Int) ≤ dateOf 600 ∧ dateOf 600 ≤ 0)
    ∧ (get_allowed_duration ⟨"mystery", 600, some 650, some 50, false⟩ = 15
      ∧ (calculate_agent_metrics
          [(⟨"mystery", 600, some 650, some 50, false⟩ : BreakRecord)] [] 0 0).total_allowed_break_minutes
          = 15 + (calculate_agent_metrics [] [] 0 0).total_allowed_break_minutes
      ∧ (calculate_agent_metrics
          [(⟨"mystery", 600, some 650, some 50, false⟩ : BreakRecord)] [] 0 0).total_break_minutes
          = 50 + (calculate_agent_metrics [] [] 0 0).total_break_minutes
      ∧ breakScores (breaksInRange
          [(⟨"mystery", 600, some 650, some 50, false⟩ : BreakRecord)] 0 0)
          = (if (50 : Int) ≤ 15 then (100 : ℚ) else (15 : ℚ) / ((50 : Int) : ℚ) * 100)
              :: breakScores (breaksInRange [] 0 0)) :=
  ⟨by decide, by decide, by decide, by decide,
    unknown_break_type_defaults_to_15 [] [] 0 0
      ⟨"mystery", 600, some 650, some 50, false⟩ 50
      (by decide) (by decide) (by decide) (by decide)⟩

end Rta
